import Mathlib

/-!
Shallow embedding of the memory-management core of
src/PyNvCodec/TC/src/MemoryInterfaces.cpp (VideoProcessingFramework).

Modelling conventions:
- machine pointers (CUdeviceptr, void*) are Nat, with 0 standing for the
  null pointer;
- the debug allocation registry (struct AllocRegister) is embedded as a
  list of notes plus the monotone id counter, and is threaded explicitly
  through every operation whose source body contains a registry call;
- the CUDA pitched allocator cuMemAllocPitch and the pinned-host allocator
  cudaMallocHost are external collaborators: each call site takes the
  allocator response as an explicit argument (success with a pointer and a
  pitch, or failure);
- C++ exceptions become the Except monad with a dedicated error type;
- host memory content is a total function from addresses to byte values so
  that memcpy has an observable effect.
-/

namespace VPF

/-- One registry note, as in struct AllocInfo: an id and a size.
The C++ operator== compares ids only. -/
structure AllocInfo where
  id : Nat
  size : Nat
deriving DecidableEq

/-- The debug allocation registry, as in struct AllocRegister: the list of
live notes and the monotonically increasing id counter ID. -/
structure AllocRegister where
  instances : List AllocInfo := []
  ID : Nat := 0
deriving DecidableEq

/-- AllocRegister::AddNote: post-increments ID, appends a note with the old
id and the given size, and returns the id. -/
def AllocRegister.AddNote (r : AllocRegister) (size : Nat) : Nat × AllocRegister :=
  (r.ID, { instances := r.instances ++ [{ id := r.ID, size := size }], ID := r.ID + 1 })

/-- AllocRegister::DeleteNote: erases every note whose id matches (the C++
remove/erase idiom with the id-only operator==). -/
def AllocRegister.DeleteNote (r : AllocRegister) (info : AllocInfo) : AllocRegister :=
  { r with instances := r.instances.filter (fun i => i.id ≠ info.id) }

/-- AllocRegister::GetSize: the number of outstanding notes. -/
def AllocRegister.GetSize (r : AllocRegister) : Nat :=
  r.instances.length

/-- Response of one cuMemAllocPitch call: on success the driver writes the
device pointer and the chosen pitch; on failure neither output parameter is
meaningfully written, and the source copies the still-indeterminate local
newPitch into the plane, which we model by an arbitrary junk value. -/
inductive CudaAllocResult where
  | success (ptr : Nat) (pitch : Nat)
  | failure (junkPitch : Nat)
deriving DecidableEq

/-- Error taxonomy of the source: std::bad_alloc thrown by Buffer on a host
allocation fault, std::invalid_argument thrown by the per-plane queries. -/
inductive MemError where
  | invalidArgument
  | badAlloc
deriving DecidableEq

/-- class SurfacePlane. Field defaults are the in-class member initializers
of the header (null device pointer, zero geometry, non-owning).
The CUcontext member is an opaque handle never observed by this core and is
omitted. -/
structure SurfacePlane where
  ownMem : Bool := false
  gpuMem : Nat := 0
  width : Nat := 0
  height : Nat := 0
  pitch : Nat := 0
  elemSize : Nat := 0
  id : Nat := 0
deriving DecidableEq

/-- SurfacePlane::Allocate: no-op for a non-owning plane; otherwise calls
cuMemAllocPitch (its commented-out error check means a failure is silent),
stores the returned pitch, and unconditionally records a registry note whose
size field is the value of GpuMem(). On failure gpuMem is left unchanged. -/
def SurfacePlane.Allocate (p : SurfacePlane) (res : CudaAllocResult)
    (reg : AllocRegister) : SurfacePlane × AllocRegister :=
  if p.ownMem = false then (p, reg)
  else
    let p1 :=
      match res with
      | .success ptr newPitch => { p with gpuMem := ptr, pitch := newPitch }
      | .failure junkPitch => { p with pitch := junkPitch }
    let note := reg.AddNote p1.gpuMem
    ({ p1 with id := note.1 }, note.2)

/-- SurfacePlane::Deallocate: no-op for a non-owning plane; otherwise deletes
the registry note (matched by id) and frees the device memory. -/
def SurfacePlane.Deallocate (p : SurfacePlane) (reg : AllocRegister) : AllocRegister :=
  if p.ownMem = false then reg
  else reg.DeleteNote { id := p.id, size := p.gpuMem }

/-- SurfacePlane copy constructor: a non-owning shallow view of the source;
the id member keeps its in-class default. No allocator or registry call
occurs in the source body. -/
def SurfacePlane.copy (other : SurfacePlane) : SurfacePlane :=
  { ownMem := false
    gpuMem := other.gpuMem
    width := other.width
    height := other.height
    pitch := other.pitch
    elemSize := other.elemSize }

/-- SurfacePlane::operator=: first deallocates whatever the left-hand side
owned, then takes a non-owning view of the right-hand side. The id member is
not assigned. -/
def SurfacePlane.assign (lhs other : SurfacePlane) (reg : AllocRegister) :
    SurfacePlane × AllocRegister :=
  let reg1 := lhs.Deallocate reg
  ({ lhs with
     ownMem := false
     gpuMem := other.gpuMem
     width := other.width
     height := other.height
     pitch := other.pitch
     elemSize := other.elemSize },
   reg1)

/-- SurfacePlane view constructor (width, height, pitch, elemSize, ptr):
records geometry, never allocates. -/
def SurfacePlane.createView (newWidth newHeight newPitch newElemSize pNewPtr : Nat) :
    SurfacePlane :=
  { ownMem := false
    gpuMem := pNewPtr
    width := newWidth
    height := newHeight
    pitch := newPitch
    elemSize := newElemSize }

/-- SurfacePlane owning constructor (width, height, elemSize, context):
starts from the member defaults with ownMem set, then runs Allocate. -/
def SurfacePlane.createOwner (newWidth newHeight newElemSize : Nat)
    (res : CudaAllocResult) (reg : AllocRegister) : SurfacePlane × AllocRegister :=
  SurfacePlane.Allocate
    { ownMem := true, width := newWidth, height := newHeight, elemSize := newElemSize }
    res reg

/-- class Buffer. Field defaults are the in-class member initializers of the
header (null raw pointer). -/
structure Buffer where
  mem_size : Nat
  own_memory : Bool
  pRawData : Nat := 0
  id : Nat := 0
deriving DecidableEq

/-- Buffer::Allocate: when the stored size is nonzero, calls cudaMallocHost,
which writes the out-parameter pRawData (0 when the allocator returns no
memory), and reports success iff the pointer is non-null; a zero-size buffer
skips the allocator call entirely and reports success. -/
def Buffer.Allocate (b : Buffer) (res : Nat) : Buffer × Bool :=
  if b.mem_size != 0 then
    ({ b with pRawData := res }, res != 0)
  else (b, true)

/-- Buffer::Deallocate: frees the pinned region when owning (no registry
call occurs here; only the destructor touches the registry) and nulls the
raw pointer in every case. -/
def Buffer.Deallocate (b : Buffer) : Buffer :=
  { b with pRawData := 0 }

/-- memcpy(dst, src, n) over the byte-addressed host memory model. -/
def memcpy (mem : Nat → Nat) (dst src n : Nat) : Nat → Nat :=
  fun a => if dst ≤ a ∧ a < dst + n then mem (src + (a - dst)) else mem a

/-- Buffer::Buffer(size_t bufferSize, bool ownMemory): when owning, a failed
Allocate throws std::bad_alloc; in every successful path a registry note of
mem_size is added and becomes the buffer id. -/
def Buffer.ctorSize (bufferSize : Nat) (ownMemory : Bool) (res : Nat)
    (reg : AllocRegister) : Except MemError (Buffer × AllocRegister) :=
  let b0 : Buffer := { mem_size := bufferSize, own_memory := ownMemory }
  if ownMemory then
    let a := b0.Allocate res
    if a.2 then
      let note := reg.AddNote a.1.mem_size
      .ok ({ a.1 with id := note.1 }, note.2)
    else .error .badAlloc
  else
    let note := reg.AddNote b0.mem_size
    .ok ({ b0 with id := note.1 }, note.2)

/-- Buffer::Buffer(size_t bufferSize, void* pCopyFrom, bool ownMemory): when
owning, allocates and copies bufferSize bytes from pCopyFrom (failed
allocation throws std::bad_alloc); when non-owning, binds pRawData to
pCopyFrom directly, with no allocator call and no copy. A registry note of
mem_size is added in every successful path. -/
def Buffer.ctorCopy (bufferSize : Nat) (pCopyFrom : Nat) (ownMemory : Bool)
    (res : Nat) (reg : AllocRegister) (mem : Nat → Nat) :
    Except MemError (Buffer × AllocRegister × (Nat → Nat)) :=
  let b0 : Buffer := { mem_size := bufferSize, own_memory := ownMemory }
  if ownMemory then
    let a := b0.Allocate res
    if a.2 then
      let mem1 := memcpy mem a.1.pRawData pCopyFrom bufferSize
      let note := reg.AddNote a.1.mem_size
      .ok ({ a.1 with id := note.1 }, note.2, mem1)
    else .error .badAlloc
  else
    let b1 := { b0 with pRawData := pCopyFrom }
    let note := reg.AddNote b1.mem_size
    .ok ({ b1 with id := note.1 }, note.2, mem)

/-- Buffer::Make(size_t bufferSize): new Buffer(bufferSize, false). -/
def Buffer.Make (bufferSize : Nat) (res : Nat) (reg : AllocRegister) :
    Except MemError (Buffer × AllocRegister) :=
  Buffer.ctorSize bufferSize false res reg

/-- Buffer::Make(size_t bufferSize, void* pCopyFrom):
new Buffer(bufferSize, pCopyFrom, false). -/
def Buffer.MakeFrom (bufferSize pCopyFrom : Nat) (res : Nat)
    (reg : AllocRegister) (mem : Nat → Nat) :
    Except MemError (Buffer × AllocRegister × (Nat → Nat)) :=
  Buffer.ctorCopy bufferSize pCopyFrom false res reg mem

/-- Buffer::MakeOwnMem(size_t bufferSize): new Buffer(bufferSize, true). -/
def Buffer.MakeOwnMem (bufferSize : Nat) (res : Nat) (reg : AllocRegister) :
    Except MemError (Buffer × AllocRegister) :=
  Buffer.ctorSize bufferSize true res reg

/-- Buffer::Update(newSize, newPtr): Deallocate, store the new size, then
reallocate-and-copy when owning, or rebind the raw pointer when non-owning.
The source body contains no registry call, so the registry is threaded
through unchanged. -/
def Buffer.Update (b : Buffer) (newSize newPtr : Nat) (res : Nat)
    (reg : AllocRegister) (mem : Nat → Nat) :
    Buffer × AllocRegister × (Nat → Nat) :=
  let b1 := b.Deallocate
  let b2 := { b1 with mem_size := newSize }
  if b2.own_memory then
    let a := b2.Allocate res
    if newPtr != 0 then (a.1, reg, memcpy mem a.1.pRawData newPtr newSize)
    else (a.1, reg, mem)
  else
    ({ b2 with pRawData := newPtr }, reg, mem)

/-- Modelled from the spec: the per-variant ElemSize() lives in
MemoryInterfaces.hpp, which is not among the reviewed sources. The format
table of section 4.3 sizes every physical plane in bytes (a W by H plane
holds W*H bytes), so the element size of every variant is one byte. -/
def surfaceElemSize : Nat := 1

/-- Wrap-around of unsigned 32-bit arithmetic: every uint32_t computation in
the source reduces its result modulo 2^32. -/
def u32 (x : Nat) : Nat := x % 4294967296

/-- Wrap-around of unsigned 64-bit arithmetic (CUdeviceptr addition). -/
def u64 (x : Nat) : Nat := x % 18446744073709551616

/-- Result of a nullable-pointer accessor: Except would misrepresent it, the
source returns nullptr rather than throwing. -/
def okD (e : Except MemError Nat) : Nat :=
  match e with
  | .ok v => v
  | .error _ => 0

/-- class SurfaceY: one full-resolution luma plane. -/
structure SurfaceY where
  plane : SurfacePlane := {}
deriving DecidableEq

/-- Modelled from the spec: NumPlanes() is defined in the missing header;
section 4.3 fixes PlaneCount per variant: Y=1, NV12=1, YUV420=3, RGB=1,
RGB_PLANAR=1. -/
def SurfaceY.NumPlanes (_s : SurfaceY) : Nat := 1

/-- SurfaceY allocating constructor (width, height, context). -/
def SurfaceY.create (width height : Nat) (res : CudaAllocResult)
    (reg : AllocRegister) : SurfaceY × AllocRegister :=
  let a := SurfacePlane.createOwner width height surfaceElemSize res reg
  ({ plane := a.1 }, a.2)

/-- SurfaceY copy constructor / Clone(): member-wise copy, which invokes the
SurfacePlane copy constructor (a non-owning view, no registry call). -/
def SurfaceY.Clone (s : SurfaceY) : SurfaceY :=
  { plane := s.plane.copy }

/-- SurfaceY::Clone with the registry threaded through: the copy constructor
body performs no allocator or registry operation. -/
def SurfaceY.CloneSt (s : SurfaceY) (reg : AllocRegister) :
    SurfaceY × AllocRegister :=
  (s.Clone, reg)

/-- SurfaceY::Width(planeNumber). -/
def SurfaceY.Width (s : SurfaceY) (planeNumber : Nat) : Except MemError Nat :=
  if planeNumber < s.NumPlanes then .ok s.plane.width
  else .error .invalidArgument

/-- SurfaceY::WidthInBytes(planeNumber). -/
def SurfaceY.WidthInBytes (s : SurfaceY) (planeNumber : Nat) : Except MemError Nat :=
  if planeNumber < s.NumPlanes then .ok (s.plane.width * s.plane.elemSize)
  else .error .invalidArgument

/-- SurfaceY::Height(planeNumber). -/
def SurfaceY.Height (s : SurfaceY) (planeNumber : Nat) : Except MemError Nat :=
  if planeNumber < s.NumPlanes then .ok s.plane.height
  else .error .invalidArgument

/-- SurfaceY::Pitch(planeNumber). -/
def SurfaceY.Pitch (s : SurfaceY) (planeNumber : Nat) : Except MemError Nat :=
  if planeNumber < s.NumPlanes then .ok s.plane.pitch
  else .error .invalidArgument

/-- SurfaceY::PlanePtr(planeNumber). -/
def SurfaceY.PlanePtr (s : SurfaceY) (planeNumber : Nat) : Except MemError Nat :=
  if planeNumber < s.NumPlanes then .ok s.plane.gpuMem
  else .error .invalidArgument

/-- SurfaceY::Update(newPlane): plane = newPlane (operator=). -/
def SurfaceY.Update (s : SurfaceY) (newPlane : SurfacePlane)
    (reg : AllocRegister) : SurfaceY × AllocRegister :=
  let a := s.plane.assign newPlane reg
  ({ plane := a.1 }, a.2)

/-- SurfaceY::GetSurfacePlane(planeNumber): planeNumber ? nullptr : plane. -/
def SurfaceY.GetSurfacePlane (s : SurfaceY) (planeNumber : Nat) :
    Option SurfacePlane :=
  if planeNumber = 0 then some s.plane else none

/-- class SurfaceNV12: one physical plane of width W and height H*3/2
holding luma followed by interleaved chroma. -/
structure SurfaceNV12 where
  plane : SurfacePlane := {}
deriving DecidableEq

/-- Modelled from the spec: NumPlanes() is defined in the missing header;
section 4.3: NV12 PlaneCount is 1 (physically one allocation; logically two
regions). -/
def SurfaceNV12.NumPlanes (_s : SurfaceNV12) : Nat := 1

/-- SurfaceNV12 allocating constructor: one plane of width and height*3/2,
where the uint32 product height*3 wraps modulo 2^32 before the halving. -/
def SurfaceNV12.create (width height : Nat) (res : CudaAllocResult)
    (reg : AllocRegister) : SurfaceNV12 × AllocRegister :=
  let a := SurfacePlane.createOwner width (u32 (height * 3) / 2) surfaceElemSize res reg
  ({ plane := a.1 }, a.2)

/-- SurfaceNV12 copy constructor / Clone(). -/
def SurfaceNV12.Clone (s : SurfaceNV12) : SurfaceNV12 :=
  { plane := s.plane.copy }

/-- SurfaceNV12::Clone with the registry threaded through (no registry call
occurs in the copy constructor body). -/
def SurfaceNV12.CloneSt (s : SurfaceNV12) (reg : AllocRegister) :
    SurfaceNV12 × AllocRegister :=
  (s.Clone, reg)

/-- SurfaceNV12::Width(planeNumber): cases 0 and 1 report the plane width. -/
def SurfaceNV12.Width (s : SurfaceNV12) (planeNumber : Nat) : Except MemError Nat :=
  match planeNumber with
  | 0 => .ok s.plane.width
  | 1 => .ok s.plane.width
  | _ => .error .invalidArgument

/-- SurfaceNV12::WidthInBytes(planeNumber). -/
def SurfaceNV12.WidthInBytes (s : SurfaceNV12) (planeNumber : Nat) :
    Except MemError Nat :=
  match planeNumber with
  | 0 => .ok (s.plane.width * s.plane.elemSize)
  | 1 => .ok (s.plane.width * s.plane.elemSize)
  | _ => .error .invalidArgument

/-- SurfaceNV12::Height(planeNumber): case 0 is plane.Height()*2/3 — the
uint32 product plane.Height()*2 wraps modulo 2^32 before the division —
and case 1 is plane.Height()/3. -/
def SurfaceNV12.Height (s : SurfaceNV12) (planeNumber : Nat) : Except MemError Nat :=
  match planeNumber with
  | 0 => .ok (u32 (s.plane.height * 2) / 3)
  | 1 => .ok (s.plane.height / 3)
  | _ => .error .invalidArgument

/-- SurfaceNV12::Pitch(planeNumber). -/
def SurfaceNV12.Pitch (s : SurfaceNV12) (planeNumber : Nat) : Except MemError Nat :=
  match planeNumber with
  | 0 => .ok s.plane.pitch
  | 1 => .ok s.plane.pitch
  | _ => .error .invalidArgument

/-- SurfaceNV12::PlanePtr(planeNumber): case 1 is
plane.GpuMem() + Height() * Pitch(), where Height() and Pitch() are this
surface's queries at the default plane index 0, inlined here. The offset
Height() * Pitch() is a uint32 product wrapping modulo 2^32, and the final
CUdeviceptr addition wraps modulo 2^64. -/
def SurfaceNV12.PlanePtr (s : SurfaceNV12) (planeNumber : Nat) : Except MemError Nat :=
  match planeNumber with
  | 0 => .ok s.plane.gpuMem
  | 1 => .ok (u64 (s.plane.gpuMem + u32 (u32 (s.plane.height * 2) / 3 * s.plane.pitch)))
  | _ => .error .invalidArgument

/-- SurfaceNV12::Update(newPlane): plane = newPlane. -/
def SurfaceNV12.Update (s : SurfaceNV12) (newPlane : SurfacePlane)
    (reg : AllocRegister) : SurfaceNV12 × AllocRegister :=
  let a := s.plane.assign newPlane reg
  ({ plane := a.1 }, a.2)

/-- SurfaceNV12::GetSurfacePlane(planeNumber): planeNumber ? nullptr : plane. -/
def SurfaceNV12.GetSurfacePlane (s : SurfaceNV12) (planeNumber : Nat) :
    Option SurfacePlane :=
  if planeNumber = 0 then some s.plane else none

/-- class SurfaceYUV420: three planes Y, U, V. -/
structure SurfaceYUV420 where
  planeY : SurfacePlane := {}
  planeU : SurfacePlane := {}
  planeV : SurfacePlane := {}
deriving DecidableEq

/-- Modelled from the spec: NumPlanes() is defined in the missing header;
section 4.3: YUV420 PlaneCount is 3. -/
def SurfaceYUV420.NumPlanes (_s : SurfaceYUV420) : Nat := 3

/-- SurfaceYUV420 allocating constructor: Y of width and height, U and V each
of width/2 and height/2, allocated in that order. -/
def SurfaceYUV420.create (width height : Nat) (resY resU resV : CudaAllocResult)
    (reg : AllocRegister) : SurfaceYUV420 × AllocRegister :=
  let aY := SurfacePlane.createOwner width height surfaceElemSize resY reg
  let aU := SurfacePlane.createOwner (width / 2) (height / 2) surfaceElemSize resU aY.2
  let aV := SurfacePlane.createOwner (width / 2) (height / 2) surfaceElemSize resV aU.2
  ({ planeY := aY.1, planeU := aU.1, planeV := aV.1 }, aV.2)

/-- SurfaceYUV420 copy constructor / Clone(). -/
def SurfaceYUV420.Clone (s : SurfaceYUV420) : SurfaceYUV420 :=
  { planeY := s.planeY.copy, planeU := s.planeU.copy, planeV := s.planeV.copy }

/-- SurfaceYUV420::Clone with the registry threaded through (no registry call
occurs in the copy constructor body). -/
def SurfaceYUV420.CloneSt (s : SurfaceYUV420) (reg : AllocRegister) :
    SurfaceYUV420 × AllocRegister :=
  (s.Clone, reg)

/-- SurfaceYUV420::Width(planeNumber). -/
def SurfaceYUV420.Width (s : SurfaceYUV420) (planeNumber : Nat) :
    Except MemError Nat :=
  match planeNumber with
  | 0 => .ok s.planeY.width
  | 1 => .ok s.planeU.width
  | 2 => .ok s.planeV.width
  | _ => .error .invalidArgument

/-- SurfaceYUV420::WidthInBytes(planeNumber). -/
def SurfaceYUV420.WidthInBytes (s : SurfaceYUV420) (planeNumber : Nat) :
    Except MemError Nat :=
  match planeNumber with
  | 0 => .ok (s.planeY.width * s.planeY.elemSize)
  | 1 => .ok (s.planeU.width * s.planeU.elemSize)
  | 2 => .ok (s.planeV.width * s.planeV.elemSize)
  | _ => .error .invalidArgument

/-- SurfaceYUV420::Height(planeNumber). -/
def SurfaceYUV420.Height (s : SurfaceYUV420) (planeNumber : Nat) :
    Except MemError Nat :=
  match planeNumber with
  | 0 => .ok s.planeY.height
  | 1 => .ok s.planeU.height
  | 2 => .ok s.planeV.height
  | _ => .error .invalidArgument

/-- SurfaceYUV420::Pitch(planeNumber). -/
def SurfaceYUV420.Pitch (s : SurfaceYUV420) (planeNumber : Nat) :
    Except MemError Nat :=
  match planeNumber with
  | 0 => .ok s.planeY.pitch
  | 1 => .ok s.planeU.pitch
  | 2 => .ok s.planeV.pitch
  | _ => .error .invalidArgument

/-- SurfaceYUV420::PlanePtr(planeNumber). -/
def SurfaceYUV420.PlanePtr (s : SurfaceYUV420) (planeNumber : Nat) :
    Except MemError Nat :=
  match planeNumber with
  | 0 => .ok s.planeY.gpuMem
  | 1 => .ok s.planeU.gpuMem
  | 2 => .ok s.planeV.gpuMem
  | _ => .error .invalidArgument

/-- SurfaceYUV420::Update(newPlaneY, newPlaneU, newPlaneV), exactly as in the
source (lines 563-568): planeY = newPlaneY; planeU = newPlaneY;
planeV = newPlaneV. The middle assignment reads newPlaneY, not newPlaneU. -/
def SurfaceYUV420.Update (s : SurfaceYUV420)
    (newPlaneY newPlaneU newPlaneV : SurfacePlane) (reg : AllocRegister) :
    SurfaceYUV420 × AllocRegister :=
  let aY := s.planeY.assign newPlaneY reg
  let aU := s.planeU.assign newPlaneY aY.2
  let aV := s.planeV.assign newPlaneV aU.2
  ({ planeY := aY.1, planeU := aU.1, planeV := aV.1 }, aV.2)

/-- SurfaceYUV420::GetSurfacePlane(planeNumber). -/
def SurfaceYUV420.GetSurfacePlane (s : SurfaceYUV420) (planeNumber : Nat) :
    Option SurfacePlane :=
  match planeNumber with
  | 0 => some s.planeY
  | 1 => some s.planeU
  | 2 => some s.planeV
  | _ => none

/-- class SurfaceRGB: one interleaved plane of width W*3 and height H. -/
structure SurfaceRGB where
  plane : SurfacePlane := {}
deriving DecidableEq

/-- Modelled from the spec: NumPlanes() is defined in the missing header;
section 4.3: RGB PlaneCount is 1. -/
def SurfaceRGB.NumPlanes (_s : SurfaceRGB) : Nat := 1

/-- SurfaceRGB allocating constructor: one plane of width*3 and height,
where the uint32 product width*3 wraps modulo 2^32. -/
def SurfaceRGB.create (width height : Nat) (res : CudaAllocResult)
    (reg : AllocRegister) : SurfaceRGB × AllocRegister :=
  let a := SurfacePlane.createOwner (u32 (width * 3)) height surfaceElemSize res reg
  ({ plane := a.1 }, a.2)

/-- SurfaceRGB copy constructor / Clone(). -/
def SurfaceRGB.Clone (s : SurfaceRGB) : SurfaceRGB :=
  { plane := s.plane.copy }

/-- SurfaceRGB::Clone with the registry threaded through (no registry call
occurs in the copy constructor body). -/
def SurfaceRGB.CloneSt (s : SurfaceRGB) (reg : AllocRegister) :
    SurfaceRGB × AllocRegister :=
  (s.Clone, reg)

/-- SurfaceRGB::Width(planeNumber): plane.Width() / 3. -/
def SurfaceRGB.Width (s : SurfaceRGB) (planeNumber : Nat) : Except MemError Nat :=
  if planeNumber < s.NumPlanes then .ok (s.plane.width / 3)
  else .error .invalidArgument

/-- SurfaceRGB::WidthInBytes(planeNumber). -/
def SurfaceRGB.WidthInBytes (s : SurfaceRGB) (planeNumber : Nat) :
    Except MemError Nat :=
  if planeNumber < s.NumPlanes then .ok (s.plane.width * s.plane.elemSize)
  else .error .invalidArgument

/-- SurfaceRGB::Height(planeNumber). -/
def SurfaceRGB.Height (s : SurfaceRGB) (planeNumber : Nat) : Except MemError Nat :=
  if planeNumber < s.NumPlanes then .ok s.plane.height
  else .error .invalidArgument

/-- SurfaceRGB::Pitch(planeNumber). -/
def SurfaceRGB.Pitch (s : SurfaceRGB) (planeNumber : Nat) : Except MemError Nat :=
  if planeNumber < s.NumPlanes then .ok s.plane.pitch
  else .error .invalidArgument

/-- SurfaceRGB::PlanePtr(planeNumber). -/
def SurfaceRGB.PlanePtr (s : SurfaceRGB) (planeNumber : Nat) : Except MemError Nat :=
  if planeNumber < s.NumPlanes then .ok s.plane.gpuMem
  else .error .invalidArgument

/-- SurfaceRGB::Update(newPlane): plane = newPlane. -/
def SurfaceRGB.Update (s : SurfaceRGB) (newPlane : SurfacePlane)
    (reg : AllocRegister) : SurfaceRGB × AllocRegister :=
  let a := s.plane.assign newPlane reg
  ({ plane := a.1 }, a.2)

/-- SurfaceRGB::GetSurfacePlane(planeNumber): planeNumber ? nullptr : plane. -/
def SurfaceRGB.GetSurfacePlane (s : SurfaceRGB) (planeNumber : Nat) :
    Option SurfacePlane :=
  if planeNumber = 0 then some s.plane else none

/-- class SurfaceRGBPlanar: one plane of width W and height H*3 holding three
stacked channel blocks. -/
structure SurfaceRGBPlanar where
  plane : SurfacePlane := {}
deriving DecidableEq

/-- Modelled from the spec: NumPlanes() is defined in the missing header;
section 4.3: RGB_PLANAR PlaneCount is 1. -/
def SurfaceRGBPlanar.NumPlanes (_s : SurfaceRGBPlanar) : Nat := 1

/-- SurfaceRGBPlanar allocating constructor: one plane of width and height*3,
where the uint32 product height*3 wraps modulo 2^32. -/
def SurfaceRGBPlanar.create (width height : Nat) (res : CudaAllocResult)
    (reg : AllocRegister) : SurfaceRGBPlanar × AllocRegister :=
  let a := SurfacePlane.createOwner width (u32 (height * 3)) surfaceElemSize res reg
  ({ plane := a.1 }, a.2)

/-- SurfaceRGBPlanar copy constructor / Clone(). -/
def SurfaceRGBPlanar.Clone (s : SurfaceRGBPlanar) : SurfaceRGBPlanar :=
  { plane := s.plane.copy }

/-- SurfaceRGBPlanar::Clone with the registry threaded through (no registry
call occurs in the copy constructor body). -/
def SurfaceRGBPlanar.CloneSt (s : SurfaceRGBPlanar) (reg : AllocRegister) :
    SurfaceRGBPlanar × AllocRegister :=
  (s.Clone, reg)

/-- SurfaceRGBPlanar::Width(planeNumber). -/
def SurfaceRGBPlanar.Width (s : SurfaceRGBPlanar) (planeNumber : Nat) :
    Except MemError Nat :=
  if planeNumber < s.NumPlanes then .ok s.plane.width
  else .error .invalidArgument

/-- SurfaceRGBPlanar::WidthInBytes(planeNumber). -/
def SurfaceRGBPlanar.WidthInBytes (s : SurfaceRGBPlanar) (planeNumber : Nat) :
    Except MemError Nat :=
  if planeNumber < s.NumPlanes then .ok (s.plane.width * s.plane.elemSize)
  else .error .invalidArgument

/-- SurfaceRGBPlanar::Height(planeNumber): plane.Height() / 3. -/
def SurfaceRGBPlanar.Height (s : SurfaceRGBPlanar) (planeNumber : Nat) :
    Except MemError Nat :=
  if planeNumber < s.NumPlanes then .ok (s.plane.height / 3)
  else .error .invalidArgument

/-- SurfaceRGBPlanar::Pitch(planeNumber). -/
def SurfaceRGBPlanar.Pitch (s : SurfaceRGBPlanar) (planeNumber : Nat) :
    Except MemError Nat :=
  if planeNumber < s.NumPlanes then .ok s.plane.pitch
  else .error .invalidArgument

/-- SurfaceRGBPlanar::PlanePtr(planeNumber). -/
def SurfaceRGBPlanar.PlanePtr (s : SurfaceRGBPlanar) (planeNumber : Nat) :
    Except MemError Nat :=
  if planeNumber < s.NumPlanes then .ok s.plane.gpuMem
  else .error .invalidArgument

/-- SurfaceRGBPlanar::Update(newPlane): plane = newPlane. -/
def SurfaceRGBPlanar.Update (s : SurfaceRGBPlanar) (newPlane : SurfacePlane)
    (reg : AllocRegister) : SurfaceRGBPlanar × AllocRegister :=
  let a := s.plane.assign newPlane reg
  ({ plane := a.1 }, a.2)

/-- SurfaceRGBPlanar::GetSurfacePlane(planeNumber):
planeNumber ? nullptr : plane. -/
def SurfaceRGBPlanar.GetSurfacePlane (s : SurfaceRGBPlanar) (planeNumber : Nat) :
    Option SurfacePlane :=
  if planeNumber = 0 then some s.plane else none

/-- Sum of WidthInBytes(i) * Height(i) over the logical plane indices the
SurfaceY queries accept (index 0). -/
def SurfaceY.byteSum (s : SurfaceY) : Nat :=
  okD (s.WidthInBytes 0) * okD (s.Height 0)

/-- Sum of WidthInBytes(i) * Height(i) over the logical plane indices the
SurfaceNV12 queries accept (indices 0 and 1). -/
def SurfaceNV12.byteSum (s : SurfaceNV12) : Nat :=
  okD (s.WidthInBytes 0) * okD (s.Height 0) +
  okD (s.WidthInBytes 1) * okD (s.Height 1)

/-- Sum of WidthInBytes(i) * Height(i) over the logical plane indices the
SurfaceYUV420 queries accept (indices 0, 1 and 2). -/
def SurfaceYUV420.byteSum (s : SurfaceYUV420) : Nat :=
  okD (s.WidthInBytes 0) * okD (s.Height 0) +
  okD (s.WidthInBytes 1) * okD (s.Height 1) +
  okD (s.WidthInBytes 2) * okD (s.Height 2)

/-- Sum of WidthInBytes(i) * Height(i) over the logical plane indices the
SurfaceRGB queries accept (index 0). -/
def SurfaceRGB.byteSum (s : SurfaceRGB) : Nat :=
  okD (s.WidthInBytes 0) * okD (s.Height 0)

/-- Sum of WidthInBytes(i) * Height(i) over the logical plane indices the
SurfaceRGBPlanar queries accept (index 0). -/
def SurfaceRGBPlanar.byteSum (s : SurfaceRGBPlanar) : Nat :=
  okD (s.WidthInBytes 0) * okD (s.Height 0)

/-- Iterate a registry-threaded operation N times, feeding each result to the
next call; used to run N successive Clone() calls. -/
def cloneIter {S : Type} (f : S → AllocRegister → S × AllocRegister) :
    Nat → S → AllocRegister → S × AllocRegister
  | 0, s, reg => (s, reg)
  | n + 1, s, reg =>
    let a := f s reg
    cloneIter f n a.1 a.2

/-- Iterating any operation that returns the registry unchanged leaves the
registry unchanged after N rounds. -/
theorem cloneIter_snd {S : Type} (f : S → AllocRegister → S × AllocRegister)
    (hf : ∀ s reg, (f s reg).2 = reg) :
    ∀ (N : Nat) (s : S) (reg : AllocRegister), (cloneIter f N s reg).2 = reg := by
  intro N
  induction N with
  | zero => intro s reg; rfl
  | succ n ih =>
    intro s reg
    show (cloneIter f n (f s reg).1 (f s reg).2).2 = reg
    rw [ih, hf]

/-- C1: evaluation of SurfaceYUV420::Update at a concrete input. The source
(MemoryInterfaces.cpp line 566) assigns planeU = newPlaneY, so after
Update(newPlaneY at device pointer 100, newPlaneU at 200, newPlaneV at 300)
the U plane is a view of newPlaneY (pointer 100), not of newPlaneU
(pointer 200), while the Y and V planes follow the claimed pattern. -/
theorem c1_yuv420_update_u_plane_bug :
    (SurfaceYUV420.Update {}
        (SurfacePlane.createView 4 4 4 1 100)
        (SurfacePlane.createView 2 2 2 1 200)
        (SurfacePlane.createView 2 2 2 1 300) {}).1.planeU.gpuMem = 100 ∧
    (SurfaceYUV420.Update {}
        (SurfacePlane.createView 4 4 4 1 100)
        (SurfacePlane.createView 2 2 2 1 200)
        (SurfacePlane.createView 2 2 2 1 300) {}).1.planeY.gpuMem = 100 ∧
    (SurfaceYUV420.Update {}
        (SurfacePlane.createView 4 4 4 1 100)
        (SurfacePlane.createView 2 2 2 1 200)
        (SurfacePlane.createView 2 2 2 1 300) {}).1.planeV.gpuMem = 300 ∧
    (SurfacePlane.createView 2 2 2 1 200).gpuMem = 200 := by
  refine ⟨rfl, rfl, rfl, rfl⟩

/-- C2 counterexample: the claim quantifies over every width and height, but
the source's integer arithmetic refutes it three times over. Odd H: at
(W, H) = (640, 1), Height(0) = (H*3/2)*2/3 = 0 ≠ 1. Large even H: at
(W, H) = (640, 2863311532) the uint32 product H*3 wraps modulo 2^32 to 4, the
plane height becomes 2 and Height(0) = 1 ≠ H. Large chroma offset: at
(W, H) = (65536, 65536) with pitch 65536, the uint32 product
Height(0)*Pitch(0) = 2^32 wraps to 0, so DevicePlanePointer(1) = 4096 =
DevicePlanePointer(0) instead of DevicePlanePointer(0) + Height(0)×Pitch(0) =
4096 + 2^32. -/
theorem c2_counterexample_height_arithmetic :
    (SurfaceNV12.create 640 1 (.success 4096 640) {}).1.Height 0 = Except.ok 0 ∧
    (0 : Nat) ≠ 1 ∧
    (SurfaceNV12.create 640 2863311532 (.success 4096 640) {}).1.Height 0
      = Except.ok 1 ∧
    (1 : Nat) ≠ 2863311532 ∧
    (SurfaceNV12.create 65536 65536 (.success 4096 65536) {}).1.PlanePtr 1
      = Except.ok 4096 ∧
    (4096 : Nat) ≠ 4096 + 65536 * 65536 := by
  refine ⟨rfl, by decide, rfl, by decide, rfl, by decide⟩

/-- C2 amended: for every width W and every even height H = 2k small enough
that the uint32 layout arithmetic does not wrap (H*3 < 2^32), an NV12 surface
allocated with (W, H) reports Height(0) = H, Height(1) = H/2 and
Width(0) = Width(1) = W; when additionally the chroma offset
Height(0) × Pitch(0) stays below 2^32 and the 64-bit pointer sum does not
wrap, DevicePlanePointer(1) = DevicePlanePointer(0) + Height(0) × Pitch(0)
(the chroma block immediately follows luma in the single physical
allocation). -/
theorem c2_nv12_geometry_even_height (W k ptr pitch : Nat) (reg : AllocRegister)
    (hH : 2 * k * 3 < 4294967296) (hoff : 2 * k * pitch < 4294967296)
    (hptr : ptr + 2 * k * pitch < 18446744073709551616) :
    ((SurfaceNV12.create W (2 * k) (.success ptr pitch) reg).1.Height 0
        = Except.ok (2 * k)) ∧
    ((SurfaceNV12.create W (2 * k) (.success ptr pitch) reg).1.Height 1
        = Except.ok k) ∧
    ((SurfaceNV12.create W (2 * k) (.success ptr pitch) reg).1.Width 0
        = Except.ok W) ∧
    ((SurfaceNV12.create W (2 * k) (.success ptr pitch) reg).1.Width 1
        = Except.ok W) ∧
    ((SurfaceNV12.create W (2 * k) (.success ptr pitch) reg).1.PlanePtr 1
        = Except.ok (ptr + 2 * k * pitch)) ∧
    (okD ((SurfaceNV12.create W (2 * k) (.success ptr pitch) reg).1.PlanePtr 1)
        = okD ((SurfaceNV12.create W (2 * k) (.success ptr pitch) reg).1.PlanePtr 0)
          + okD ((SurfaceNV12.create W (2 * k) (.success ptr pitch) reg).1.Height 0)
            * okD ((SurfaceNV12.create W (2 * k) (.success ptr pitch) reg).1.Pitch 0)) := by
  have e1 : u32 (u32 (2 * k * 3) / 2 * 2) / 3 = 2 * k := by
    unfold u32
    omega
  have e2 : u32 (2 * k * 3) / 2 / 3 = k := by
    unfold u32
    omega
  have e4 : u32 (2 * k * pitch) = 2 * k * pitch := Nat.mod_eq_of_lt hoff
  have e5 : u64 (ptr + 2 * k * pitch) = ptr + 2 * k * pitch := Nat.mod_eq_of_lt hptr
  refine ⟨?_, ?_, rfl, rfl, ?_, ?_⟩
  · show Except.ok (u32 (u32 (2 * k * 3) / 2 * 2) / 3) = Except.ok (2 * k)
    rw [e1]
  · show Except.ok (u32 (2 * k * 3) / 2 / 3) = Except.ok k
    rw [e2]
  · show Except.ok (u64 (ptr + u32 (u32 (u32 (2 * k * 3) / 2 * 2) / 3 * pitch)))
        = Except.ok (ptr + 2 * k * pitch)
    rw [e1, e4, e5]
  · show u64 (ptr + u32 (u32 (u32 (2 * k * 3) / 2 * 2) / 3 * pitch))
        = ptr + u32 (u32 (2 * k * 3) / 2 * 2) / 3 * pitch
    rw [e1, e4, e5]

/-- C2 witness: the amended geometry at the spec's own example, W = 640 and
H = 480 = 2×240 with pitch 640 and device pointer 4096 — every wrap bound
holds and Height(0) comes out as 480. -/
theorem c2_nv12_geometry_even_height_witness :
    2 * 240 * 3 < 4294967296 ∧ 2 * 240 * 640 < 4294967296 ∧
    4096 + 2 * 240 * 640 < 18446744073709551616 ∧
    (SurfaceNV12.create 640 (2 * 240) (.success 4096 640)
        { instances := [], ID := 0 }).1.Height 0 = Except.ok (2 * 240) :=
  ⟨by decide, by decide, by decide,
   (c2_nv12_geometry_even_height 640 240 4096 640 { instances := [], ID := 0 }
      (by decide) (by decide) (by decide)).1⟩

/-- C3 counterexample: Buffer::Make(5, pCopyFrom = 7) succeeds even when the
pinned-host allocator has no memory to give (response 0), and the resulting
buffer is non-owning with RawPointer() equal to the source pointer 7 itself —
so the two-argument factory neither allocates a new region, nor copies, nor
fails on an allocation fault, contradicting the claim. -/
theorem c3_counterexample_make_is_a_view :
    (Buffer.MakeFrom 5 7 0 {} (fun a => a)).toOption.map
        (fun t => (t.1.own_memory, t.1.pRawData, t.1.mem_size))
      = some (false, 7, 5) := by
  rfl

/-- C3 amended: Buffer::Make(size, pCopyFrom) constructs a NON-OWNING buffer
(it forwards ownMemory = false to the constructor): it binds the raw pointer
to pCopyFrom directly without calling the pinned-host allocator and without
copying any bytes (host memory is returned unchanged), it never fails
regardless of allocator behavior, and the registry records one note of the
requested size. The allocate-and-copy semantics belong to the
ownMemory = true constructor only. -/
theorem c3_make_from_is_nonowning_view (size p res : Nat) (reg : AllocRegister)
    (mem : Nat → Nat) :
    Buffer.MakeFrom size p res reg mem
      = .ok ({ mem_size := size, own_memory := false, pRawData := p, id := reg.ID },
             (reg.AddNote size).2, mem) := by
  rfl

/-- C4: copy-construction and assignment of a SurfacePlane always produce a
non-owning view of the source device pointer; assignment first deallocates
whatever the left-hand side owned (deleting its registry note when it was an
owner); Clone() of every surface variant performs no registry operation, so
after N clones the registry — and hence the live allocation count — is
exactly what it was before, for every N. -/
theorem c4_view_semantics_and_clone_counts :
    (∀ other : SurfacePlane,
        (SurfacePlane.copy other).ownMem = false ∧
        (SurfacePlane.copy other).gpuMem = other.gpuMem) ∧
    (∀ (lhs rhs : SurfacePlane) (reg : AllocRegister),
        (lhs.assign rhs reg).2 = lhs.Deallocate reg ∧
        (lhs.assign rhs reg).1.ownMem = false ∧
        (lhs.assign rhs reg).1.gpuMem = rhs.gpuMem) ∧
    (∀ (p : SurfacePlane) (reg : AllocRegister),
        p.Deallocate reg
          = if p.ownMem then reg.DeleteNote { id := p.id, size := p.gpuMem }
            else reg) ∧
    (∀ s : SurfaceY, (s.Clone).plane.ownMem = false ∧
        (s.Clone).plane.gpuMem = s.plane.gpuMem) ∧
    (∀ (N : Nat) (s : SurfaceY) (reg : AllocRegister),
        (cloneIter SurfaceY.CloneSt N s reg).2 = reg ∧
        ((cloneIter SurfaceY.CloneSt N s reg).2).GetSize = reg.GetSize) ∧
    (∀ (N : Nat) (s : SurfaceNV12) (reg : AllocRegister),
        (cloneIter SurfaceNV12.CloneSt N s reg).2 = reg) ∧
    (∀ (N : Nat) (s : SurfaceYUV420) (reg : AllocRegister),
        (cloneIter SurfaceYUV420.CloneSt N s reg).2 = reg) ∧
    (∀ (N : Nat) (s : SurfaceRGB) (reg : AllocRegister),
        (cloneIter SurfaceRGB.CloneSt N s reg).2 = reg) ∧
    (∀ (N : Nat) (s : SurfaceRGBPlanar) (reg : AllocRegister),
        (cloneIter SurfaceRGBPlanar.CloneSt N s reg).2 = reg) := by
  refine ⟨fun other => ⟨rfl, rfl⟩,
    fun lhs rhs reg => ⟨rfl, rfl, rfl⟩,
    fun p reg => ?_,
    fun s => ⟨rfl, rfl⟩,
    fun N s reg => ⟨cloneIter_snd _ (fun s reg => rfl) N s reg, ?_⟩,
    fun N s reg => cloneIter_snd _ (fun s reg => rfl) N s reg,
    fun N s reg => cloneIter_snd _ (fun s reg => rfl) N s reg,
    fun N s reg => cloneIter_snd _ (fun s reg => rfl) N s reg,
    fun N s reg => cloneIter_snd _ (fun s reg => rfl) N s reg⟩
  · cases h : p.ownMem <;> simp [SurfacePlane.Deallocate, h]
  · rw [cloneIter_snd _ (fun s reg => rfl) N s reg]

/-- C5: allocation failure is asymmetric. An owning Buffer of nonzero size
whose pinned allocation returns no memory (response 0) throws bad_alloc from
either constructor; a SurfacePlane whose pitched device allocation fails
raises nothing — createOwner is a total function — and leaves the device
pointer at its null default 0 for the caller to check. -/
theorem c5_allocation_failure_asymmetry :
    (∀ (size res : Nat) (reg : AllocRegister),
        res = 0 → Buffer.ctorSize (size + 1) true res reg = .error .badAlloc) ∧
    (∀ (size p res : Nat) (reg : AllocRegister) (mem : Nat → Nat),
        res = 0 → Buffer.ctorCopy (size + 1) p true res reg mem
          = .error .badAlloc) ∧
    (∀ (w h e junk : Nat) (reg : AllocRegister),
        (SurfacePlane.createOwner w h e (.failure junk) reg).1.gpuMem = 0 ∧
        (SurfacePlane.createOwner w h e (.failure junk) reg).1.ownMem = true) := by
  refine ⟨fun size res reg hr => ?_, fun size p res reg mem hr => ?_,
    fun w h e junk reg => ⟨rfl, rfl⟩⟩
  · subst hr; rfl
  · subst hr; rfl

/-- C5 witness: the asymmetry at a concrete input — Buffer.ctorSize 1 with a
failed host allocation throws bad_alloc, while createOwner 2 2 1 with a
failed device allocation returns a plane whose device pointer is null. -/
theorem c5_allocation_failure_asymmetry_witness :
    Buffer.ctorSize 1 true 0 { instances := [], ID := 0 } = .error .badAlloc ∧
    (SurfacePlane.createOwner 2 2 1 (.failure 5)
        { instances := [], ID := 0 }).1.gpuMem = 0 := by
  exact ⟨c5_allocation_failure_asymmetry.1 0 0 { instances := [], ID := 0 } rfl,
    (c5_allocation_failure_asymmetry.2.2 2 2 1 5 { instances := [], ID := 0 }).1⟩

/-- C6 counterexample: an NV12 surface allocated with W=2, H=2 has
PlaneCount() = 1 (one physical allocation), yet every geometry and pointer
query succeeds at the logical plane index 1 instead of failing with
invalid-argument: Width(1) = 2, WidthInBytes(1) = 2, Height(1) = 1,
Pitch(1) = 16, DevicePlanePointer(1) = 48. -/
theorem c6_counterexample_nv12_logical_index :
    (SurfaceNV12.create 2 2 (.success 16 16) {}).1.NumPlanes = 1 ∧
    (SurfaceNV12.create 2 2 (.success 16 16) {}).1.Width 1 = Except.ok 2 ∧
    (SurfaceNV12.create 2 2 (.success 16 16) {}).1.WidthInBytes 1 = Except.ok 2 ∧
    (SurfaceNV12.create 2 2 (.success 16 16) {}).1.Height 1 = Except.ok 1 ∧
    (SurfaceNV12.create 2 2 (.success 16 16) {}).1.Pitch 1 = Except.ok 16 ∧
    (SurfaceNV12.create 2 2 (.success 16 16) {}).1.PlanePtr 1 = Except.ok 48 := by
  refine ⟨rfl, rfl, rfl, rfl, rfl, rfl⟩

/-- C6 amended: for SurfaceY, SurfaceYUV420, SurfaceRGB and SurfaceRGBPlanar,
every geometry or pointer query at any index at or above PlaneCount() fails
with invalid-argument (index i + PlaneCount covers them all); for SurfaceNV12
the queries additionally accept the logical chroma index 1 although
PlaneCount() = 1, and every index at or above 2 fails with invalid-argument. -/
theorem c6_out_of_range_queries_amended :
    (∀ (s : SurfaceY) (i : Nat),
        s.Width (i + 1) = .error .invalidArgument ∧
        s.WidthInBytes (i + 1) = .error .invalidArgument ∧
        s.Height (i + 1) = .error .invalidArgument ∧
        s.Pitch (i + 1) = .error .invalidArgument ∧
        s.PlanePtr (i + 1) = .error .invalidArgument) ∧
    (∀ (s : SurfaceNV12) (i : Nat),
        s.Width (i + 2) = .error .invalidArgument ∧
        s.WidthInBytes (i + 2) = .error .invalidArgument ∧
        s.Height (i + 2) = .error .invalidArgument ∧
        s.Pitch (i + 2) = .error .invalidArgument ∧
        s.PlanePtr (i + 2) = .error .invalidArgument) ∧
    (∀ (s : SurfaceYUV420) (i : Nat),
        s.Width (i + 3) = .error .invalidArgument ∧
        s.WidthInBytes (i + 3) = .error .invalidArgument ∧
        s.Height (i + 3) = .error .invalidArgument ∧
        s.Pitch (i + 3) = .error .invalidArgument ∧
        s.PlanePtr (i + 3) = .error .invalidArgument) ∧
    (∀ (s : SurfaceRGB) (i : Nat),
        s.Width (i + 1) = .error .invalidArgument ∧
        s.WidthInBytes (i + 1) = .error .invalidArgument ∧
        s.Height (i + 1) = .error .invalidArgument ∧
        s.Pitch (i + 1) = .error .invalidArgument ∧
        s.PlanePtr (i + 1) = .error .invalidArgument) ∧
    (∀ (s : SurfaceRGBPlanar) (i : Nat),
        s.Width (i + 1) = .error .invalidArgument ∧
        s.WidthInBytes (i + 1) = .error .invalidArgument ∧
        s.Height (i + 1) = .error .invalidArgument ∧
        s.Pitch (i + 1) = .error .invalidArgument ∧
        s.PlanePtr (i + 1) = .error .invalidArgument) := by
  refine ⟨fun s i => ⟨?_, ?_, ?_, ?_, ?_⟩,
    fun s i => ⟨rfl, rfl, rfl, rfl, rfl⟩,
    fun s i => ⟨rfl, rfl, rfl, rfl, rfl⟩,
    fun s i => ⟨?_, ?_, ?_, ?_, ?_⟩,
    fun s i => ⟨?_, ?_, ?_, ?_, ?_⟩⟩ <;>
  simp [SurfaceY.Width, SurfaceY.WidthInBytes, SurfaceY.Height, SurfaceY.Pitch,
    SurfaceY.PlanePtr, SurfaceY.NumPlanes, SurfaceRGB.Width, SurfaceRGB.WidthInBytes,
    SurfaceRGB.Height, SurfaceRGB.Pitch, SurfaceRGB.PlanePtr, SurfaceRGB.NumPlanes,
    SurfaceRGBPlanar.Width, SurfaceRGBPlanar.WidthInBytes, SurfaceRGBPlanar.Height,
    SurfaceRGBPlanar.Pitch, SurfaceRGBPlanar.PlanePtr, SurfaceRGBPlanar.NumPlanes]

/-- The owning constructor stores the requested width whatever the allocator
answers. -/
theorem createOwner_width (w h e : Nat) (res : CudaAllocResult)
    (reg : AllocRegister) :
    (SurfacePlane.createOwner w h e res reg).1.width = w := by
  cases res <;> simp [SurfacePlane.createOwner, SurfacePlane.Allocate]

/-- The owning constructor stores the requested height whatever the allocator
answers. -/
theorem createOwner_height (w h e : Nat) (res : CudaAllocResult)
    (reg : AllocRegister) :
    (SurfacePlane.createOwner w h e res reg).1.height = h := by
  cases res <;> simp [SurfacePlane.createOwner, SurfacePlane.Allocate]

/-- The owning constructor stores the requested element size whatever the
allocator answers. -/
theorem createOwner_elemSize (w h e : Nat) (res : CudaAllocResult)
    (reg : AllocRegister) :
    (SurfacePlane.createOwner w h e res reg).1.elemSize = e := by
  cases res <;> simp [SurfacePlane.createOwner, SurfacePlane.Allocate]

/-- C7 counterexample: the claimed per-format byte counts fail four ways.
NV12 at (W, H) = (1, 1) sums to 0, not W×H + W×(H/2) = 1 (the odd height is
lost by (H*3/2)*2/3). NV12 at (1, 2863311532): the uint32 product H*3 wraps
to 4, the plane height becomes 2 and the sum is 1, not 4294967298.
RGB at (1431655766, 1): the uint32 product W*3 wraps to 2, so the sum is 2,
not 3×W×H = 4294967298. RGB_PLANAR at (1, 1) sums to W×H = 1 over its single
logical plane, not 3×W×H = 3 (Height(0) divides the 3H-row physical
allocation back down to H); and at (1, 1431655766) the uint32 product H*3
wraps to 2, Height(0) = 0 and the sum is 0, not W×H = 1431655766. -/
theorem c7_counterexample_byte_sums :
    (SurfaceNV12.create 1 1 (.success 16 16) {}).1.byteSum = 0 ∧
    (0 : Nat) ≠ 1 * 1 + 1 * (1 / 2) ∧
    (SurfaceNV12.create 1 2863311532 (.success 16 16) {}).1.byteSum = 1 ∧
    (1 : Nat) ≠ 1 * 2863311532 + 1 * (2863311532 / 2) ∧
    (SurfaceRGB.create 1431655766 1 (.success 16 16) {}).1.byteSum = 2 ∧
    (2 : Nat) ≠ 3 * (1431655766 * 1) ∧
    (SurfaceRGBPlanar.create 1 1 (.success 16 16) {}).1.byteSum = 1 ∧
    (1 : Nat) ≠ 3 * (1 * 1) ∧
    (SurfaceRGBPlanar.create 1 1431655766 (.success 16 16) {}).1.byteSum = 0 ∧
    (0 : Nat) ≠ 1 * 1431655766 := by
  refine ⟨rfl, by decide, rfl, by decide, rfl, by decide, rfl, by decide, rfl,
    by decide⟩

/-- C7 amended: the sum over logical planes of WidthInBytes(i) × Height(i)
equals, for every allocator response and registry: Y: W×H for all (W, H);
NV12: W×H + W×(H/2) for every W and every EVEN H = 2k with H*3 < 2^32 (the
uint32 product H*3 wraps past that); YUV420: W×H + 2×(⌊W/2⌋×⌊H/2⌋) for all
(W, H); RGB: 3×W×H whenever the uint32 product W*3 < 2^32; RGB_PLANAR: W×H
whenever the uint32 product H*3 < 2^32 — its single logical plane reports the
nominal geometry, not the 3× physical allocation. -/
theorem c7_byte_sums_amended :
    (∀ (W H : Nat) (res : CudaAllocResult) (reg : AllocRegister),
        (SurfaceY.create W H res reg).1.byteSum = W * H) ∧
    (∀ (W k : Nat) (res : CudaAllocResult) (reg : AllocRegister),
        2 * k * 3 < 4294967296 →
        (SurfaceNV12.create W (2 * k) res reg).1.byteSum
          = W * (2 * k) + W * (2 * k / 2)) ∧
    (∀ (W H : Nat) (resY resU resV : CudaAllocResult) (reg : AllocRegister),
        (SurfaceYUV420.create W H resY resU resV reg).1.byteSum
          = W * H + 2 * (W / 2 * (H / 2))) ∧
    (∀ (W H : Nat) (res : CudaAllocResult) (reg : AllocRegister),
        W * 3 < 4294967296 →
        (SurfaceRGB.create W H res reg).1.byteSum = 3 * (W * H)) ∧
    (∀ (W H : Nat) (res : CudaAllocResult) (reg : AllocRegister),
        H * 3 < 4294967296 →
        (SurfaceRGBPlanar.create W H res reg).1.byteSum = W * H) := by
  refine ⟨fun W H res reg => ?_, fun W k res reg hH => ?_,
    fun W H resY resU resV reg => ?_, fun W H res reg hW => ?_,
    fun W H res reg hh => ?_⟩
  · simp [SurfaceY.create, SurfaceY.byteSum, SurfaceY.WidthInBytes, SurfaceY.Height,
      SurfaceY.NumPlanes, okD, createOwner_width, createOwner_height,
      createOwner_elemSize, surfaceElemSize]
  · have e1 : u32 (u32 (2 * k * 3) / 2 * 2) / 3 = 2 * k := by
      unfold u32
      omega
    have e2 : u32 (2 * k * 3) / 2 / 3 = k := by
      unfold u32
      omega
    have e3 : 2 * k / 2 = k := by omega
    simp [SurfaceNV12.create, SurfaceNV12.byteSum, SurfaceNV12.WidthInBytes,
      SurfaceNV12.Height, okD, createOwner_width, createOwner_height,
      createOwner_elemSize, surfaceElemSize, e1, e2, e3]
  · simp [SurfaceYUV420.create, SurfaceYUV420.byteSum, SurfaceYUV420.WidthInBytes,
      SurfaceYUV420.Height, okD, createOwner_width, createOwner_height,
      createOwner_elemSize, surfaceElemSize]
    ring
  · have e1 : u32 (W * 3) = W * 3 := Nat.mod_eq_of_lt hW
    simp [SurfaceRGB.create, SurfaceRGB.byteSum, SurfaceRGB.WidthInBytes,
      SurfaceRGB.Height, SurfaceRGB.NumPlanes, okD, createOwner_width,
      createOwner_height, createOwner_elemSize, surfaceElemSize, e1]
    ring
  · have e1 : u32 (H * 3) = H * 3 := Nat.mod_eq_of_lt hh
    have e2 : H * 3 / 3 = H := by omega
    simp [SurfaceRGBPlanar.create, SurfaceRGBPlanar.byteSum,
      SurfaceRGBPlanar.WidthInBytes, SurfaceRGBPlanar.Height,
      SurfaceRGBPlanar.NumPlanes, okD, createOwner_width, createOwner_height,
      createOwner_elemSize, surfaceElemSize, e1, e2]

/-- C7 witness: the amended sums at concrete inputs with every wrap bound
discharged — NV12 at (2, 2) sums to 6, RGB at (2, 2) to 12, RGB_PLANAR at
(2, 2) to 4. -/
theorem c7_byte_sums_amended_witness :
    2 * 1 * 3 < 4294967296 ∧ 2 * 3 < 4294967296 ∧
    (SurfaceNV12.create 2 (2 * 1) (.success 16 16)
        { instances := [], ID := 0 }).1.byteSum = 2 * (2 * 1) + 2 * (2 * 1 / 2) ∧
    (SurfaceRGB.create 2 2 (.success 16 16)
        { instances := [], ID := 0 }).1.byteSum = 3 * (2 * 2) ∧
    (SurfaceRGBPlanar.create 2 2 (.success 16 16)
        { instances := [], ID := 0 }).1.byteSum = 2 * 2 :=
  ⟨by decide, by decide,
   c7_byte_sums_amended.2.1 2 1 (.success 16 16) { instances := [], ID := 0 }
     (by decide),
   c7_byte_sums_amended.2.2.2.1 2 2 (.success 16 16) { instances := [], ID := 0 }
     (by decide),
   c7_byte_sums_amended.2.2.2.2 2 2 (.success 16 16) { instances := [], ID := 0 }
     (by decide)⟩

/-- C8: Buffer::Update(s, p) on a non-owning Buffer (every non-owning buffer
is covered by quantifying its remaining fields) rebinds it without
allocating: afterwards the raw pointer is exactly p and the size is s, the
allocation registry is untouched, and host memory is unchanged (no copy
takes place). -/
theorem c8_update_nonowning_rebinds (ms pd idv newSize newPtr res : Nat)
    (reg : AllocRegister) (mem : Nat → Nat) :
    Buffer.Update { mem_size := ms, own_memory := false, pRawData := pd, id := idv }
        newSize newPtr res reg mem
      = ({ mem_size := newSize, own_memory := false, pRawData := newPtr, id := idv },
         reg, mem) := by
  rfl

/-- C9: for every Surface variant, GetSurfacePlane with a plane index at or
above PlaneCount() (written i + PlaneCount) returns the null pointer rather
than raising invalid-argument, and for every in-range index it returns the
corresponding underlying plane. -/
theorem c9_get_surface_plane_nullable :
    (∀ (s : SurfaceY) (i : Nat),
        s.GetSurfacePlane 0 = some s.plane ∧ s.GetSurfacePlane (i + 1) = none) ∧
    (∀ (s : SurfaceNV12) (i : Nat),
        s.GetSurfacePlane 0 = some s.plane ∧ s.GetSurfacePlane (i + 1) = none) ∧
    (∀ (s : SurfaceYUV420) (i : Nat),
        s.GetSurfacePlane 0 = some s.planeY ∧ s.GetSurfacePlane 1 = some s.planeU ∧
        s.GetSurfacePlane 2 = some s.planeV ∧ s.GetSurfacePlane (i + 3) = none) ∧
    (∀ (s : SurfaceRGB) (i : Nat),
        s.GetSurfacePlane 0 = some s.plane ∧ s.GetSurfacePlane (i + 1) = none) ∧
    (∀ (s : SurfaceRGBPlanar) (i : Nat),
        s.GetSurfacePlane 0 = some s.plane ∧ s.GetSurfacePlane (i + 1) = none) := by
  refine ⟨fun s i => ⟨rfl, ?_⟩, fun s i => ⟨rfl, ?_⟩,
    fun s i => ⟨rfl, rfl, rfl, rfl⟩, fun s i => ⟨rfl, ?_⟩, fun s i => ⟨rfl, ?_⟩⟩ <;>
  simp [SurfaceY.GetSurfacePlane, SurfaceNV12.GetSurfacePlane,
    SurfaceRGB.GetSurfacePlane, SurfaceRGBPlanar.GetSurfacePlane]

/-- C10: constructing an owning Buffer of requested size 0 succeeds for every
allocator response (the pinned-host allocator is never consulted, so no
out-of-memory condition can arise), the resulting raw pointer is null and the
size is 0, and a registry note of size 0 is still recorded. -/
theorem c10_zero_size_owning_buffer (res : Nat) (reg : AllocRegister) :
    Buffer.ctorSize 0 true res reg
      = .ok ({ mem_size := 0, own_memory := true, pRawData := 0, id := reg.ID },
             (reg.AddNote 0).2) := by
  rfl

end VPF
